import Mathlib

/-!
Shallow embedding of the BackendAPIServer to-do service
(src/BackendAPIServer/src/api): the data model of database_models.py and
models.py, the security routines of security.py, the identity resolver of
dependencies.py, and the request handlers of endpoints.py. The external
collaborators (bcrypt password hashing via passlib, JWT signing via
python-jose, the relational store) are modelled at their interface
boundary. Time is measured in minutes as a natural number; datetime
columns hold such instants.
-/

/-- Model of a bcrypt salted hash as produced by passlib
(`pwd_context.hash`): a salt together with the plaintext it was derived
from, standing for the one-way digest; `verify` succeeds exactly on the
plaintext the hash was derived from, for any salt. -/
structure BcryptHash where
  salt : Nat
  hashedOf : String
deriving Repr, DecidableEq

/-- security.py `get_password_hash`: hash the password with a fresh salt
(the salt is passed explicitly here since the embedding is pure). -/
def get_password_hash (password : String) (salt : Nat) : BcryptHash :=
  { salt := salt, hashedOf := password }

/-- security.py `verify_password`. -/
def verify_password (plain_password : String) (hashed_password : BcryptHash) : Bool :=
  plain_password == hashed_password.hashedOf

/-- security.py SECRET_KEY: the default value of the environment lookup. -/
def SECRET_KEY : String := "change_this_secret"

/-- security.py ACCESS_TOKEN_EXPIRE_MINUTES = 60 * 24 (1 day). -/
def ACCESS_TOKEN_EXPIRE_MINUTES : Nat := 60 * 24

/-- The claims carried by a token as built in `create_access_token`:
the dict `{"sub": ..., "exp": ...}` ("sub" may be absent). -/
structure JwtPayload where
  sub : Option String
  exp : Nat
deriving Repr, DecidableEq

/-- Model of an encoded JWT (python-jose): the payload together with the
key it was signed with. A mis-signed or tampered token is one whose
`signedWith` differs from the verifier's secret. -/
structure Jwt where
  payload : JwtPayload
  signedWith : String
deriving Repr, DecidableEq

/-- The `data` dict passed to `create_access_token` (`{"sub": username}`
at the only call site; "sub" may in principle be absent). -/
structure JwtData where
  sub : Option String
deriving Repr, DecidableEq

/-- security.py `create_access_token`: copy the data, set
`exp = now + expires_delta` (or the 24-hour default), sign with
SECRET_KEY. -/
def create_access_token (data : JwtData) (expires_delta : Option Nat) (now : Nat) : Jwt :=
  let expire : Nat :=
    match expires_delta with
    | some delta => now + delta
    | none => now + ACCESS_TOKEN_EXPIRE_MINUTES
  { payload := { sub := data.sub, exp := expire }, signedWith := SECRET_KEY }

/-- security.py `decode_access_token`: `jwt.decode` verifies the
signature against SECRET_KEY and checks the token is unexpired
(spec 4.2: `now < expiry`); any JWTError yields None. -/
def decode_access_token (token : Jwt) (now : Nat) : Option JwtPayload :=
  if token.signedWith = SECRET_KEY ∧ now < token.payload.exp then some token.payload else none

/-- Row of the `users` table (database_models.py `User`). -/
structure StoredUser where
  id : Nat
  username : String
  email : String
  hashed_password : BcryptHash
  created_at : Nat
deriving Repr, DecidableEq

/-- Row of the `tasks` table (database_models.py `Task`). -/
structure StoredTask where
  id : Nat
  title : String
  description : Option String
  completed : Bool
  due_date : Option Nat
  owner_id : Nat
  created_at : Nat
  updated_at : Nat
deriving Repr, DecidableEq

/-- The relational store: the `users` and `tasks` tables. -/
structure Store where
  users : List StoredUser
  tasks : List StoredTask
deriving Repr, DecidableEq

/-- models.py `UserRegistration` (validation of lengths/format is done by
the external validation layer before the handler runs). -/
structure UserRegistration where
  username : String
  email : String
  password : String
deriving Repr, DecidableEq

/-- models.py `UserLogin`. -/
structure UserLogin where
  username : String
  password : String
deriving Repr, DecidableEq

/-- models.py `UserRead`: the public projection of a user; by
construction it has no password-hash field. -/
structure UserRead where
  id : Nat
  username : String
  email : String
  created_at : Nat
deriving Repr, DecidableEq

/-- models.py `Token`: the login response. -/
structure Token where
  access_token : Jwt
  token_type : String
deriving Repr, DecidableEq

/-- models.py `TaskCreate`: the create-request body; by construction the
client can supply neither `completed` nor an owner. -/
structure TaskCreate where
  title : String
  description : Option String
  due_date : Option Nat
deriving Repr, DecidableEq

/-- models.py `TaskUpdate`. The outer Option models pydantic field
presence: `none` = field absent from the request (dropped by
`model_dump(exclude_unset=True)`); `some v` = field explicitly present
with JSON value `v`, where the inner `none` is an explicit null. -/
structure TaskUpdate where
  title : Option (Option String)
  description : Option (Option String)
  completed : Option (Option Bool)
  due_date : Option (Option Nat)
deriving Repr, DecidableEq

/-- models.py `TaskRead`: the full projection of a task. -/
structure TaskRead where
  id : Nat
  title : String
  description : Option String
  completed : Bool
  due_date : Option Nat
  owner_id : Nat
  created_at : Nat
  updated_at : Nat
deriving Repr, DecidableEq

/-- A non-success outcome at the transport layer: an HTTPException raised
by a handler (status code and detail string), or a SQLAlchemy exception
that escapes a handler uncaught (process-level failure, surfaced as a
5xx by the framework, never as a 400-class response): a database
IntegrityError at commit, or a MultipleResultsFound from
`scalar_one_or_none` on a multi-row result. -/
inductive ApiError where
  | httpException (status : Nat) (detail : String)
  | integrityError
  | multipleResultsFound
deriving Repr, DecidableEq

/-- The 401 raised by dependencies.py `get_current_user`. -/
def credentials_exception : ApiError :=
  .httpException 401 "Could not validate credentials."

/-- The 404 raised by the task handlers. -/
def task_not_found : ApiError := .httpException 404 "Task not found."

/-- The TaskRead each task handler builds from a task row. -/
def taskRead (task : StoredTask) : TaskRead :=
  { id := task.id, title := task.title, description := task.description,
    completed := task.completed, due_date := task.due_date, owner_id := task.owner_id,
    created_at := task.created_at, updated_at := task.updated_at }

/-- The store after an operation: on an error path no commit happened, so
the store is unchanged. -/
def storeAfter {α : Type} (db : Store) (r : Except ApiError (α × Store)) : Store :=
  match r with
  | .ok (_, db2) => db2
  | .error _ => db

/-- dependencies.py `get_current_user`: decode the bearer token; 401 if
the payload is None or has no "sub"; look the subject up as a username;
401 if absent; otherwise return the user row. -/
def get_current_user (token : Jwt) (db : Store) (now : Nat) : Except ApiError StoredUser :=
  match decode_access_token token now with
  | none => .error credentials_exception
  | some payload =>
    match payload.sub with
    | none => .error credentials_exception
    | some username =>
      match db.users.find? (fun u => u.username == username) with
      | none => .error credentials_exception
      | some user => .ok user

/-- The storage layer's commit of a new user row: the unique constraints
on username and email declared in database_models.py raise an
IntegrityError on violation. -/
def commitNewUser (db : Store) (user_obj : StoredUser) : Except ApiError Store :=
  if db.users.any (fun u => u.username == user_obj.username || u.email == user_obj.email)
  then .error .integrityError
  else .ok { users := db.users ++ [user_obj], tasks := db.tasks }

/-- SQLAlchemy `Result.scalar_one_or_none` over the rows a SELECT
returned: None on no row, the row on exactly one, and a
MultipleResultsFound exception on two or more rows. -/
def scalar_one_or_none {α : Type} (rows : List α) : Except ApiError (Option α) :=
  match rows with
  | [] => .ok none
  | [a] => .ok (some a)
  | _ :: _ :: _ => .error .multipleResultsFound

/-- endpoints.py `register_user`, with the check-then-insert race window
of spec section 5 made explicit: `interleaved` are the user rows
committed by concurrent requests between this handler's existence check
and its own commit (a sequential execution has `interleaved = []`). The
existence check runs `scalar_one_or_none` on the username-OR-email
SELECT, so two distinct matching rows raise MultipleResultsFound. The
handler body has no exception handling at all, so that exception — and
an IntegrityError raised at `db.commit()` — propagates out of the
handler. -/
def register_user_core (user_in : UserRegistration) (db : Store)
    (interleaved : List StoredUser) (salt now new_id : Nat) :
    Except ApiError (UserRead × Store) :=
  match scalar_one_or_none
      (db.users.filter (fun u => u.username == user_in.username || u.email == user_in.email)) with
  | .error e => .error e
  | .ok (some _) => .error (.httpException 400 "Username or email already in use.")
  | .ok none =>
    let user_obj : StoredUser :=
      { id := new_id, username := user_in.username, email := user_in.email,
        hashed_password := get_password_hash user_in.password salt, created_at := now }
    match commitNewUser { users := db.users ++ interleaved, tasks := db.tasks } user_obj with
    | .error e => .error e
    | .ok db2 =>
      .ok ({ id := user_obj.id, username := user_obj.username, email := user_obj.email,
             created_at := user_obj.created_at }, db2)

/-- endpoints.py `register_user` in a sequential execution (no writes
interleaved between check and commit). -/
def register_user (user_in : UserRegistration) (db : Store) (salt now new_id : Nat) :
    Except ApiError (UserRead × Store) :=
  register_user_core user_in db [] salt now new_id

/-- endpoints.py `login_user`: look the username up; if absent or the
password fails verification, 401 with one fixed detail; otherwise issue
a bearer token with subject = username. -/
def login_user (user_in : UserLogin) (db : Store) (now : Nat) : Except ApiError Token :=
  match db.users.find? (fun u => u.username == user_in.username) with
  | none => .error (.httpException 401 "Incorrect username or password.")
  | some user =>
    if verify_password user_in.password user.hashed_password then
      .ok { access_token := create_access_token { sub := some user.username } none now,
            token_type := "bearer" }
    else .error (.httpException 401 "Incorrect username or password.")

/-- endpoints.py `get_my_profile`. -/
def get_my_profile (token : Jwt) (db : Store) (now : Nat) : Except ApiError UserRead :=
  match get_current_user token db now with
  | .error e => .error e
  | .ok current_user =>
    .ok { id := current_user.id, username := current_user.username,
          email := current_user.email, created_at := current_user.created_at }

/-- endpoints.py `create_task`: build a task row owned by the resolved
user; `completed` takes the column default False and the timestamps the
server defaults (`func.now()`). -/
def create_task (task_in : TaskCreate) (token : Jwt) (db : Store) (now new_id : Nat) :
    Except ApiError (TaskRead × Store) :=
  match get_current_user token db now with
  | .error e => .error e
  | .ok current_user =>
    let task : StoredTask :=
      { id := new_id, title := task_in.title, description := task_in.description,
        completed := false, due_date := task_in.due_date, owner_id := current_user.id,
        created_at := now, updated_at := now }
    .ok (taskRead task, { users := db.users, tasks := db.tasks ++ [task] })

/-- endpoints.py `list_tasks`. -/
def list_tasks (token : Jwt) (db : Store) (now : Nat) : Except ApiError (List TaskRead) :=
  match get_current_user token db now with
  | .error e => .error e
  | .ok current_user =>
    .ok ((db.tasks.filter (fun t => t.owner_id == current_user.id)).map taskRead)

/-- endpoints.py `get_task`: select by id AND owner; 404 when no row
matches. -/
def get_task (task_id : Nat) (token : Jwt) (db : Store) (now : Nat) :
    Except ApiError TaskRead :=
  match get_current_user token db now with
  | .error e => .error e
  | .ok current_user =>
    match db.tasks.find? (fun t => t.id == task_id && t.owner_id == current_user.id) with
    | none => .error task_not_found
    | some task => .ok (taskRead task)

/-- endpoints.py `update_task`: same id-AND-owner lookup as `get_task`;
apply exactly the fields present in the request (`exclude_unset`). At
commit, SQLAlchemy computes the net change of each assigned attribute
against its loaded value and emits an UPDATE only when some attribute
actually changed; only then does the `onupdate=func.now()` column
default refresh `updated_at`. With no net change no UPDATE is emitted
and the row — `updated_at` included — keeps its prior values. An
explicit null assigned to a NOT NULL column (title, completed) is
rejected by the store at commit as an IntegrityError. -/
def update_task (task_id : Nat) (task_in : TaskUpdate) (token : Jwt) (db : Store) (now : Nat) :
    Except ApiError (TaskRead × Store) :=
  match get_current_user token db now with
  | .error e => .error e
  | .ok current_user =>
    match db.tasks.find? (fun t => t.id == task_id && t.owner_id == current_user.id) with
    | none => .error task_not_found
    | some task =>
      match task_in.title.getD (some task.title), task_in.completed.getD (some task.completed) with
      | some new_title, some new_completed =>
        let task1 : StoredTask :=
          { task with
            title := new_title,
            description := task_in.description.getD task.description,
            completed := new_completed,
            due_date := task_in.due_date.getD task.due_date }
        let task2 : StoredTask :=
          if task1 = task then task else { task1 with updated_at := now }
        .ok (taskRead task2,
             { users := db.users,
               tasks := db.tasks.map (fun t => if t.id == task.id then task2 else t) })
      | _, _ => .error .integrityError

/-- endpoints.py `delete_task`: same id-AND-owner lookup; remove the row
and return no content (204). -/
def delete_task (task_id : Nat) (token : Jwt) (db : Store) (now : Nat) :
    Except ApiError (Unit × Store) :=
  match get_current_user token db now with
  | .error e => .error e
  | .ok current_user =>
    match db.tasks.find? (fun t => t.id == task_id && t.owner_id == current_user.id) with
    | none => .error task_not_found
    | some task =>
      .ok ((), { users := db.users, tasks := db.tasks.filter (fun t => !(t.id == task.id)) })

/-! Concrete fixtures for witness evaluations. -/

/-- Sample stored user "alice" (id 1). -/
def userA : StoredUser :=
  { id := 1, username := "alice", email := "a@x.com",
    hashed_password := get_password_hash "secret1" 7, created_at := 0 }

/-- Sample stored user "bob" (id 2). -/
def userB : StoredUser :=
  { id := 2, username := "bob", email := "b@x.com",
    hashed_password := get_password_hash "secret2" 8, created_at := 0 }

/-- Sample task owned by alice. -/
def taskA : StoredTask :=
  { id := 10, title := "buy milk", description := none, completed := false,
    due_date := none, owner_id := 1, created_at := 0, updated_at := 0 }

/-- Sample store holding alice, bob and alice's task. -/
def dbAB : Store := { users := [userA, userB], tasks := [taskA] }

/-- A valid token for bob, expiring at minute 1440. -/
def tokB : Jwt := { payload := { sub := some "bob", exp := 1440 }, signedWith := SECRET_KEY }

/-- A valid token for alice, expiring at minute 1440. -/
def tokA : Jwt := { payload := { sub := some "alice", exp := 1440 }, signedWith := SECRET_KEY }

/-- An update request with no field present. -/
def noUpdate : TaskUpdate := { title := none, description := none, completed := none, due_date := none }

/-! Helper lemmas. -/

/-- With primary-key-unique task ids, the id-AND-owner query of the task
handlers finds nothing when the task with that id belongs to someone
else. -/
theorem find_task_other_owner_eq_none (db : Store) (B : StoredUser) (t : StoredTask)
    (huniq : ∀ t1 ∈ db.tasks, ∀ t2 ∈ db.tasks, t1.id = t2.id → t1 = t2)
    (ht : t ∈ db.tasks) (hown : t.owner_id ≠ B.id) :
    db.tasks.find? (fun x => x.id == t.id && x.owner_id == B.id) = none := by
  rw [List.find?_eq_none]
  intro x hx hpx
  simp only [Bool.and_eq_true, beq_iff_eq] at hpx
  obtain ⟨hid, hb⟩ := hpx
  have hxt : x = t := huniq x hx t ht hid
  subst hxt
  exact hown hb

/-- The id-AND-owner query finds nothing at an id no task has. -/
theorem find_task_absent_id_eq_none (db : Store) (uid j : Nat)
    (habs : ∀ t2 ∈ db.tasks, t2.id ≠ j) :
    db.tasks.find? (fun x => x.id == j && x.owner_id == uid) = none := by
  rw [List.find?_eq_none]
  intro x hx hpx
  simp only [Bool.and_eq_true, beq_iff_eq] at hpx
  exact habs x hx hpx.1

/-- Every error produced by `login_user` is the one fixed 401. -/
theorem login_user_error_eq (i : UserLogin) (db : Store) (n : Nat) (e : ApiError)
    (h : login_user i db n = .error e) :
    e = .httpException 401 "Incorrect username or password." := by
  unfold login_user at h
  cases hf : db.users.find? (fun u => u.username == i.username) with
  | none =>
    rw [hf] at h
    exact (Except.error.inj h).symm
  | some user =>
    rw [hf] at h
    by_cases hv : verify_password i.password user.hashed_password
    · simp [hv] at h
    · simp [hv] at h
      exact h.symm

/-- `decode_access_token` can only return the token's own payload. -/
theorem decode_access_token_some (token : Jwt) (now : Nat) (p : JwtPayload)
    (h : decode_access_token token now = some p) : p = token.payload := by
  unfold decode_access_token at h
  by_cases hc : token.signedWith = SECRET_KEY ∧ now < token.payload.exp
  · simp [hc] at h
    exact h.symm
  · simp [hc] at h

/-! Claim theorems. -/

/-- C4: a token issued by `create_access_token` with the default TTL at
time T carries absolute expiry T + 24 hours (ACCESS_TOKEN_EXPIRE_MINUTES
= 60 * 24 minutes); it decodes successfully at T + 1 minute and fails to
decode at T + 25 hours. -/
theorem c4_token_ttl_24h (s : String) (T : Nat) :
    (create_access_token { sub := some s } none T).payload.exp = T + 24 * 60 ∧
    decode_access_token (create_access_token { sub := some s } none T) (T + 1) =
      some { sub := some s, exp := T + 24 * 60 } ∧
    decode_access_token (create_access_token { sub := some s } none T) (T + 25 * 60) = none := by
  refine ⟨?_, ?_, ?_⟩
  · simp [create_access_token, ACCESS_TOKEN_EXPIRE_MINUTES]
  · have h : T + 1 < T + 60 * 24 := by omega
    simp [create_access_token, decode_access_token, ACCESS_TOKEN_EXPIRE_MINUTES, h]
  · have h : ¬ (T + 25 * 60 < T + 60 * 24) := by omega
    simp [create_access_token, decode_access_token, ACCESS_TOKEN_EXPIRE_MINUTES, h]

/-- C8: a failed login is the one fixed Unauthorized outcome
(401, "Incorrect username or password.") whether the username is absent
from the store or present with a non-verifying password, and any two
failed login attempts (over any inputs and stores) produce equal errors. -/
theorem c8_login_failure_indistinguishable (i1 i2 : UserLogin) (db1 db2 : Store) (n1 n2 : Nat) :
    (db1.users.find? (fun u => u.username == i1.username) = none →
      login_user i1 db1 n1 = .error (.httpException 401 "Incorrect username or password.")) ∧
    (∀ u, db1.users.find? (fun v => v.username == i1.username) = some u →
      verify_password i1.password u.hashed_password = false →
      login_user i1 db1 n1 = .error (.httpException 401 "Incorrect username or password.")) ∧
    (∀ e1 e2, login_user i1 db1 n1 = .error e1 → login_user i2 db2 n2 = .error e2 → e1 = e2) := by
  refine ⟨?_, ?_, ?_⟩
  · intro h
    simp [login_user, h]
  · intro u hu hv
    simp [login_user, hu, hv]
  · intro e1 e2 h1 h2
    rw [login_user_error_eq i1 db1 n1 e1 h1, login_user_error_eq i2 db2 n2 e2 h2]

/-- C8 witness: bob is absent from the sample store; alice is present but
the password is wrong; both logins yield the identical 401. -/
theorem c8_login_failure_indistinguishable_witness :
    (dbAB.users.find? (fun u => u.username == "bob2") = none ∧
      login_user { username := "bob2", password := "secret9" } dbAB 0 =
        .error (.httpException 401 "Incorrect username or password.")) ∧
    (dbAB.users.find? (fun v => v.username == "alice") = some userA ∧
      verify_password "wrong66" userA.hashed_password = false ∧
      login_user { username := "alice", password := "wrong66" } dbAB 0 =
        .error (.httpException 401 "Incorrect username or password.")) := by
  refine ⟨⟨by decide, ?_⟩, ⟨by decide, by decide, ?_⟩⟩
  · exact (c8_login_failure_indistinguishable
      { username := "bob2", password := "secret9" }
      { username := "bob2", password := "secret9" } dbAB dbAB 0 0).1 (by decide)
  · exact (c8_login_failure_indistinguishable
      { username := "alice", password := "wrong66" }
      { username := "alice", password := "wrong66" } dbAB dbAB 0 0).2.1 userA
      (by decide) (by decide)

/-- C9: for an authenticated user, `create_task` always succeeds, and the
created task has owner_id equal to the resolved user's id, completed
false, and both timestamps server-assigned to now — for every request
body, since TaskCreate carries neither completed nor an owner. -/
theorem c9_create_task_owner_and_defaults (task_in : TaskCreate) (token : Jwt) (db : Store)
    (now new_id : Nat) (u : StoredUser)
    (hu : get_current_user token db now = .ok u) :
    create_task task_in token db now new_id =
      .ok ({ id := new_id, title := task_in.title, description := task_in.description,
             completed := false, due_date := task_in.due_date, owner_id := u.id,
             created_at := now, updated_at := now },
           { users := db.users,
             tasks := db.tasks ++
               [{ id := new_id, title := task_in.title, description := task_in.description,
                  completed := false, due_date := task_in.due_date, owner_id := u.id,
                  created_at := now, updated_at := now }] }) := by
  simp [create_task, hu, taskRead]

/-- C9 witness: alice creates a task in the sample store. -/
theorem c9_create_task_owner_and_defaults_witness :
    get_current_user tokA dbAB 0 = .ok userA ∧
    create_task { title := "write spec", description := none, due_date := none } tokA dbAB 0 11 =
      .ok ({ id := 11, title := "write spec", description := none,
             completed := false, due_date := none, owner_id := userA.id,
             created_at := 0, updated_at := 0 },
           { users := dbAB.users,
             tasks := dbAB.tasks ++
               [{ id := 11, title := "write spec", description := none,
                  completed := false, due_date := none, owner_id := userA.id,
                  created_at := 0, updated_at := 0 }] }) := by
  refine ⟨by rfl, ?_⟩
  exact c9_create_task_owner_and_defaults
    { title := "write spec", description := none, due_date := none } tokA dbAB 0 11 userA (by rfl)

/-- C10: a token that is validly signed with SECRET_KEY and unexpired but
whose payload has no "sub" claim is rejected with the 401
credentials_exception by the profile handler and all five task handlers,
for every store content — so the rejection happens without consulting or
changing the task store. -/
theorem c10_no_sub_claim_rejected (token : Jwt) (db : Store) (now new_id task_id : Nat)
    (task_in : TaskCreate) (upd : TaskUpdate)
    (hsig : token.signedWith = SECRET_KEY)
    (hexp : now < token.payload.exp)
    (hsub : token.payload.sub = none) :
    get_my_profile token db now = .error credentials_exception ∧
    create_task task_in token db now new_id = .error credentials_exception ∧
    list_tasks token db now = .error credentials_exception ∧
    get_task task_id token db now = .error credentials_exception ∧
    update_task task_id upd token db now = .error credentials_exception ∧
    delete_task task_id token db now = .error credentials_exception ∧
    storeAfter db (create_task task_in token db now new_id) = db ∧
    storeAfter db (update_task task_id upd token db now) = db ∧
    storeAfter db (delete_task task_id token db now) = db := by
  have hgcu : get_current_user token db now = .error credentials_exception := by
    simp [get_current_user, decode_access_token, hsig, hexp, hsub]
  refine ⟨?_, ?_, ?_, ?_, ?_, ?_, ?_, ?_, ?_⟩ <;>
    simp [get_my_profile, create_task, list_tasks, get_task, update_task, delete_task,
      storeAfter, hgcu]

/-- C10 witness: a signed, unexpired, sub-less token against the sample
store. -/
theorem c10_no_sub_claim_rejected_witness :
    (({ payload := { sub := none, exp := 100 }, signedWith := SECRET_KEY } : Jwt).signedWith
        = SECRET_KEY ∧
      (5 : Nat) < ({ payload := { sub := none, exp := 100 }, signedWith := SECRET_KEY } : Jwt).payload.exp ∧
      ({ payload := { sub := none, exp := 100 }, signedWith := SECRET_KEY } : Jwt).payload.sub = none) ∧
    get_my_profile { payload := { sub := none, exp := 100 }, signedWith := SECRET_KEY } dbAB 5 =
      .error credentials_exception ∧
    get_task 10 { payload := { sub := none, exp := 100 }, signedWith := SECRET_KEY } dbAB 5 =
      .error credentials_exception := by
  have h := c10_no_sub_claim_rejected
    { payload := { sub := none, exp := 100 }, signedWith := SECRET_KEY } dbAB 5 11 10
    { title := "x", description := none, due_date := none } noUpdate rfl (by decide) rfl
  exact ⟨⟨rfl, by decide, rfl⟩, h.1, h.2.2.2.1⟩

/-- C1: for an authenticated caller B and a task t owned by someone else,
Get, Update and Delete on t's id all yield the 404 task_not_found — the
same outcome these operations yield at an id that belongs to no task at
all — with no success, no distinct forbidden signal (the only error
produced is the 404), and the store unchanged. -/
theorem c1_cross_owner_indistinguishable_from_absent (db : Store) (token : Jwt) (now : Nat)
    (B : StoredUser) (t : StoredTask) (upd : TaskUpdate)
    (huniq : ∀ t1 ∈ db.tasks, ∀ t2 ∈ db.tasks, t1.id = t2.id → t1 = t2)
    (hB : get_current_user token db now = .ok B)
    (ht : t ∈ db.tasks) (hown : t.owner_id ≠ B.id) :
    get_task t.id token db now = .error task_not_found ∧
    update_task t.id upd token db now = .error task_not_found ∧
    delete_task t.id token db now = .error task_not_found ∧
    storeAfter db (update_task t.id upd token db now) = db ∧
    storeAfter db (delete_task t.id token db now) = db ∧
    ∀ j, (∀ t2 ∈ db.tasks, t2.id ≠ j) →
      get_task j token db now = get_task t.id token db now ∧
      update_task j upd token db now = update_task t.id upd token db now ∧
      delete_task j token db now = delete_task t.id token db now := by
  have hf : db.tasks.find? (fun x => x.id == t.id && x.owner_id == B.id) = none :=
    find_task_other_owner_eq_none db B t huniq ht hown
  refine ⟨?_, ?_, ?_, ?_, ?_, ?_⟩
  · simp [get_task, hB, hf]
  · simp [update_task, hB, hf]
  · simp [delete_task, hB, hf]
  · simp [update_task, hB, hf, storeAfter]
  · simp [delete_task, hB, hf, storeAfter]
  · intro j habs
    have hfj : db.tasks.find? (fun x => x.id == j && x.owner_id == B.id) = none :=
      find_task_absent_id_eq_none db B.id j habs
    refine ⟨?_, ?_, ?_⟩
    · simp [get_task, hB, hf, hfj]
    · simp [update_task, hB, hf, hfj]
    · simp [delete_task, hB, hf, hfj]

/-- C1 witness: bob operating on alice's task in the sample store. -/
theorem c1_cross_owner_indistinguishable_from_absent_witness :
    ((∀ t1 ∈ dbAB.tasks, ∀ t2 ∈ dbAB.tasks, t1.id = t2.id → t1 = t2) ∧
      get_current_user tokB dbAB 0 = .ok userB ∧
      taskA ∈ dbAB.tasks ∧ taskA.owner_id ≠ userB.id) ∧
    get_task taskA.id tokB dbAB 0 = .error task_not_found ∧
    update_task taskA.id noUpdate tokB dbAB 0 = .error task_not_found ∧
    delete_task taskA.id tokB dbAB 0 = .error task_not_found := by
  have h := c1_cross_owner_indistinguishable_from_absent dbAB tokB 0 userB taskA noUpdate
    (by decide) (by rfl) (by decide) (by decide)
  exact ⟨⟨by decide, by rfl, by decide, by decide⟩, h.1, h.2.1, h.2.2.1⟩

/-- C5 counterexample: the claim as stated fails when the provided
completed value equals the current one. PUT with only {completed: false}
on alice's not-yet-completed task at minute 5: every assigned attribute
equals its loaded value, SQLAlchemy emits no UPDATE, onupdate never
fires, and the row is returned with its prior updated_at = 0 — not
advanced to 5. -/
theorem c5_same_value_update_counterexample :
    update_task 10
        { title := none, description := none, completed := some (some false), due_date := none }
        tokA dbAB 5 =
      .ok (taskRead taskA, dbAB) ∧
    (taskRead taskA).updated_at = 0 ∧
    ((taskRead taskA).updated_at = 5) = False ∧
    (taskA.updated_at < (taskRead taskA).updated_at) = False := by
  refine ⟨by rfl, rfl, eq_false (by decide), eq_false (by decide)⟩

/-- C5 (amended): an update whose body explicitly provides only
`completed`, with a value different from the task's current one, leaves
the owned task's title, description and due_date at their prior values,
sets completed to the provided value, and refreshes updated_at to now —
strictly later than the prior updated_at. -/
theorem c5_partial_update_completed_only (task_id : Nat) (b : Bool) (token : Jwt) (db : Store)
    (now : Nat) (u : StoredUser) (t : StoredTask)
    (hu : get_current_user token db now = .ok u)
    (ht : db.tasks.find? (fun x => x.id == task_id && x.owner_id == u.id) = some t)
    (hb : b ≠ t.completed)
    (hadv : t.updated_at < now) :
    update_task task_id
        { title := none, description := none, completed := some (some b), due_date := none }
        token db now =
      .ok ({ id := t.id, title := t.title, description := t.description, completed := b,
             due_date := t.due_date, owner_id := t.owner_id, created_at := t.created_at,
             updated_at := now },
           { users := db.users,
             tasks := db.tasks.map (fun x =>
               if x.id == t.id then { t with completed := b, updated_at := now } else x) }) ∧
    t.updated_at < now := by
  refine ⟨?_, hadv⟩
  have hne : ({ t with completed := b } : StoredTask) ≠ t := by
    intro hcontra
    exact hb (congrArg StoredTask.completed hcontra)
  simp [update_task, hu, ht, taskRead, hne]

/-- C5 witness: alice sets completed := true (currently false) on her
task at minute 5. -/
theorem c5_partial_update_completed_only_witness :
    (get_current_user tokA dbAB 5 = .ok userA ∧
      dbAB.tasks.find? (fun x => x.id == 10 && x.owner_id == userA.id) = some taskA ∧
      (true = taskA.completed) = False ∧
      taskA.updated_at < 5) ∧
    update_task 10 { title := none, description := none, completed := some (some true), due_date := none }
        tokA dbAB 5 =
      .ok ({ id := taskA.id, title := taskA.title, description := taskA.description,
             completed := true, due_date := taskA.due_date, owner_id := taskA.owner_id,
             created_at := taskA.created_at, updated_at := 5 },
           { users := dbAB.users,
             tasks := dbAB.tasks.map (fun x =>
               if x.id == taskA.id then { taskA with completed := true, updated_at := 5 }
               else x) }) := by
  have h := c5_partial_update_completed_only 10 true tokA dbAB 5 userA taskA
    (by rfl) (by rfl) (by decide) (by decide)
  exact ⟨⟨by rfl, by rfl, eq_false (by decide), by decide⟩, h.1⟩

/-- C6: evaluating register_user at the inputs the claim quantifies
over. With exactly one existing match the handler returns the fixed 400
Conflict and leaves the store unchanged, and with no match it creates
the user with the public projection; but when one user matches the
requested username and a different user matches the requested email — a
reachable store respecting both unique constraints — the existence
check's scalar_one_or_none receives two rows and raises
MultipleResultsFound, which nothing in the handler or app catches: a
fatal outcome, not the 400 Conflict the claim requires for every
matching store. -/
theorem c6_multi_match_precheck_escapes_uncaught :
    register_user { username := "alice", email := "b@x.com", password := "secret9" } dbAB 4 6 3 =
      .error .multipleResultsFound ∧
    (ApiError.multipleResultsFound =
      ApiError.httpException 400 "Username or email already in use.") = False ∧
    register_user { username := "alice", email := "c@x.com", password := "secret9" } dbAB 4 6 3 =
      .error (.httpException 400 "Username or email already in use.") ∧
    storeAfter dbAB
      (register_user { username := "alice", email := "c@x.com", password := "secret9" } dbAB 4 6 3)
      = dbAB ∧
    register_user { username := "carol", email := "c@x.com", password := "secret9" } dbAB 4 6 3 =
      .ok ({ id := 3, username := "carol", email := "c@x.com", created_at := 6 },
           { users := dbAB.users ++
               [{ id := 3, username := "carol", email := "c@x.com",
                  hashed_password := get_password_hash "secret9" 4, created_at := 6 }],
             tasks := dbAB.tasks }) := by
  refine ⟨by rfl, eq_false (by decide), by rfl, by rfl, by rfl⟩

/-- C2: registering a fresh (username, email, password) and then logging
in with the same password succeeds, and the returned bearer token, when
decoded and resolved against the resulting store, yields a subject and a
user record whose username equals the registered username. -/
theorem c2_register_then_login_roundtrip (username email password : String)
    (salt now1 now2 now3 new_id : Nat) (db : Store)
    (hfresh : ∀ w ∈ db.users, w.username ≠ username ∧ w.email ≠ email)
    (hval : now3 < now2 + ACCESS_TOKEN_EXPIRE_MINUTES) :
    ∃ db2 tok u,
      register_user { username := username, email := email, password := password } db salt now1 new_id =
        .ok ({ id := new_id, username := username, email := email, created_at := now1 }, db2) ∧
      login_user { username := username, password := password } db2 now2 = .ok tok ∧
      tok.token_type = "bearer" ∧
      tok.access_token.payload.sub = some username ∧
      get_current_user tok.access_token db2 now3 = .ok u ∧
      u.username = username := by
  have hfil : db.users.filter (fun u => u.username == username || u.email == email) = [] := by
    rw [List.filter_eq_nil_iff]
    intro w hw
    simp only [Bool.or_eq_true, beq_iff_eq, not_or]
    exact hfresh w hw
  have hnex : ¬ ∃ x ∈ db.users, x.username = username ∨ x.email = email := by
    rintro ⟨x, hx, hor⟩
    rcases hor with h1 | h2
    · exact (hfresh x hx).1 h1
    · exact (hfresh x hx).2 h2
  have hfu : (db.users ++
      [({ id := new_id, username := username, email := email,
          hashed_password := get_password_hash password salt,
          created_at := now1 } : StoredUser)]).find? (fun u => u.username == username) =
      some { id := new_id, username := username, email := email,
             hashed_password := get_password_hash password salt, created_at := now1 } := by
    rw [List.find?_append]
    have h1 : db.users.find? (fun u => u.username == username) = none := by
      rw [List.find?_eq_none]
      intro w hw
      simp only [beq_iff_eq]
      exact (hfresh w hw).1
    rw [h1, Option.none_or]
    simp [List.find?]
  refine ⟨⟨db.users ++ [⟨new_id, username, email, get_password_hash password salt, now1⟩],
      db.tasks⟩,
    ⟨create_access_token ⟨some username⟩ none now2, "bearer"⟩,
    ⟨new_id, username, email, get_password_hash password salt, now1⟩,
    ?_, ?_, rfl, rfl, ?_, rfl⟩
  · simp only [register_user, register_user_core, hfil]
    simp [scalar_one_or_none, commitNewUser, hnex, get_password_hash]
  · simp only [login_user, hfu]
    simp [verify_password, get_password_hash]
  · have hdec : decode_access_token (create_access_token ⟨some username⟩ none now2) now3 =
        some ⟨some username, now2 + ACCESS_TOKEN_EXPIRE_MINUTES⟩ := by
      simp [decode_access_token, create_access_token, hval]
    simp only [get_current_user, hdec, hfu]

/-- C2 witness: register and log in "dave" against the sample store. -/
theorem c2_register_then_login_roundtrip_witness :
    ((∀ w ∈ dbAB.users, w.username ≠ "dave" ∧ w.email ≠ "d@x.com") ∧
      (2 : Nat) < 1 + ACCESS_TOKEN_EXPIRE_MINUTES) ∧
    (∃ db2 tok u,
      register_user { username := "dave", email := "d@x.com", password := "secret7" } dbAB 3 0 5 =
        .ok ({ id := 5, username := "dave", email := "d@x.com", created_at := 0 }, db2) ∧
      login_user { username := "dave", password := "secret7" } db2 1 = .ok tok ∧
      tok.token_type = "bearer" ∧
      tok.access_token.payload.sub = some "dave" ∧
      get_current_user tok.access_token db2 2 = .ok u ∧
      u.username = "dave") := by
  refine ⟨⟨by decide, by decide⟩, ?_⟩
  exact c2_register_then_login_roundtrip "dave" "d@x.com" "secret7" 3 0 1 2 5 dbAB
    (by decide) (by decide)

/-- C3: identity resolution yields the 401 credentials_exception exactly
when the token fails to decode (mis-signed or expired) or when the
token's subject is not the username of any stored user; on success it
returns a stored user whose username is the token's subject — the unique
such record when usernames are unique — and the only error it ever
produces is that 401. -/
theorem c3_resolve_unauthenticated_iff (token : Jwt) (db : Store) (now : Nat)
    (huniq : ∀ u1 ∈ db.users, ∀ u2 ∈ db.users, u1.username = u2.username → u1 = u2) :
    (get_current_user token db now = .error credentials_exception ↔
      (decode_access_token token now = none ∨
        ∀ u ∈ db.users, token.payload.sub ≠ some u.username)) ∧
    (∀ u, get_current_user token db now = .ok u →
      u ∈ db.users ∧ token.payload.sub = some u.username ∧
      ∀ v ∈ db.users, v.username = u.username → v = u) ∧
    (∀ e, get_current_user token db now = .error e → e = credentials_exception) := by
  cases hd : decode_access_token token now with
  | none =>
    have hg : get_current_user token db now = .error credentials_exception := by
      simp [get_current_user, hd]
    refine ⟨?_, ?_, ?_⟩
    · simp [hg, hd]
    · intro u hu
      rw [hg] at hu
      simp at hu
    · intro e he
      rw [hg] at he
      exact (Except.error.inj he).symm
  | some p =>
    have hp := decode_access_token_some token now p hd
    subst hp
    cases hs : token.payload.sub with
    | none =>
      have hg : get_current_user token db now = .error credentials_exception := by
        simp [get_current_user, hd, hs]
      refine ⟨?_, ?_, ?_⟩
      · simp only [hg]
        constructor
        · intro _
          right
          intro u _
          simp
        · intro _
          trivial
      · intro u hu
        rw [hg] at hu
        simp at hu
      · intro e he
        rw [hg] at he
        exact (Except.error.inj he).symm
    | some s =>
      cases hf : db.users.find? (fun u => u.username == s) with
      | none =>
        have hg : get_current_user token db now = .error credentials_exception := by
          simp [get_current_user, hd, hs, hf]
        have habs : ∀ u ∈ db.users, some s ≠ some u.username := by
          intro u hu hcontra
          have hne := List.find?_eq_none.mp hf u hu
          simp only [beq_iff_eq] at hne
          exact hne (Option.some.inj hcontra).symm
        refine ⟨?_, ?_, ?_⟩
        · simp only [hg]
          exact ⟨fun _ => Or.inr habs, fun _ => by trivial⟩
        · intro u hu
          rw [hg] at hu
          simp at hu
        · intro e he
          rw [hg] at he
          exact (Except.error.inj he).symm
      | some w =>
        have hg : get_current_user token db now = .ok w := by
          simp [get_current_user, hd, hs, hf]
        have hwmem : w ∈ db.users := List.mem_of_find?_eq_some hf
        have hwname : w.username = s := by
          have := List.find?_some hf
          simpa using this
        refine ⟨?_, ?_, ?_⟩
        · rw [hg]
          constructor
          · intro hcontra
            simp at hcontra
          · rintro (h1 | h2)
            · simp at h1
            · exact absurd (by rw [hwname]) (h2 w hwmem)
        · intro u hu
          rw [hg] at hu
          have hwu : w = u := Except.ok.inj hu
          subst hwu
          refine ⟨hwmem, by rw [hwname], ?_⟩
          intro v hv hvw
          exact huniq v hv w hwmem hvw
        · intro e he
          rw [hg] at he
          simp at he

/-- C3 witness: a valid token for bob resolves to bob's unique record in
the sample store. -/
theorem c3_resolve_unauthenticated_iff_witness :
    (∀ u1 ∈ dbAB.users, ∀ u2 ∈ dbAB.users, u1.username = u2.username → u1 = u2) ∧
    (userB ∈ dbAB.users ∧ tokB.payload.sub = some userB.username ∧
      ∀ v ∈ dbAB.users, v.username = userB.username → v = userB) := by
  refine ⟨by decide, ?_⟩
  exact (c3_resolve_unauthenticated_iff tokB dbAB 0 (by decide)).2.1 userB (by rfl)

/-- C7: evaluating register_user on the race the spec describes
(section 5): a duplicate username committed by a concurrent request
inside this handler's check-to-commit window. The handler has no
exception handling around db.commit(), so the store's IntegrityError
escapes uncaught — a fatal outcome — instead of becoming the 400
Conflict that the sequential duplicate path produces. -/
theorem c7_commit_race_escapes_uncaught :
    register_user_core { username := "alice", email := "a2@x.com", password := "secret1" }
        { users := [], tasks := [] }
        [{ id := 1, username := "alice", email := "a@y.com",
           hashed_password := get_password_hash "secret2" 9, created_at := 0 }] 7 0 2 =
      .error .integrityError ∧
    register_user { username := "alice", email := "a2@x.com", password := "secret1" }
        { users := [{ id := 1, username := "alice", email := "a@y.com",
                      hashed_password := get_password_hash "secret2" 9, created_at := 0 }],
          tasks := [] } 7 0 2 =
      .error (.httpException 400 "Username or email already in use.") ∧
    (ApiError.integrityError = ApiError.httpException 400 "Username or email already in use.")
      = False := by
  refine ⟨by rfl, by rfl, eq_false (by decide)⟩
